import Mathlib

/-!
Verification of `src/gpx_to_csv.py` (GPX-to-CSV converter).

Numeric model: Python floats are modelled as rationals (ℚ); timestamps are
modelled as rationals counting seconds, so `t - t0` is exactly the value of
the patched `total_seconds(point.time - previous.time)` helper.

External gpxpy primitives that the script merely calls (2D/3D point
distance, `calculate_max_speed`, `get_speed`, `get_time_bounds`,
`get_bounds`) are uninterpreted parameters of the embedding, bundled in
`GpxLib`; the script's own logic is translated line by line.
-/

namespace GpxToCsv

/-- A GPX track point: latitude, longitude, optional elevation, optional
timestamp (seconds). Mirrors the gpxpy point shape used by the script. -/
structure GPXPoint where
  latitude : ℚ
  longitude : ℚ
  elevation : Option ℚ
  time : Option ℚ
deriving DecidableEq, Repr

/-- A GPX track segment: an ordered list of points. -/
structure GPXTrackSegment where
  points : List GPXPoint
deriving DecidableEq, Repr

/-- A GPX track: a name and an ordered list of segments. -/
structure GPXTrack where
  name : Option String
  segments : List GPXTrackSegment
deriving DecidableEq, Repr

/-- A GPX document: a name and an ordered list of tracks. -/
structure GPX where
  name : Option String
  tracks : List GPXTrack
deriving DecidableEq, Repr

/-- gpxpy's MovingData named tuple, as returned by `get_moving_data`. -/
structure MovingData where
  moving_time : ℚ
  stopped_time : ℚ
  moving_distance : ℚ
  stopped_distance : ℚ
  max_speed : ℚ
deriving DecidableEq, Repr

/-- gpxpy's TimeBounds named tuple (`track.get_time_bounds()`). -/
structure TimeBounds where
  start_time : Option ℚ
  end_time : Option ℚ
deriving DecidableEq, Repr

/-- gpxpy's GPXBounds (`track.get_bounds()`). -/
structure GPXBounds where
  max_latitude : Option ℚ
  max_longitude : Option ℚ
  min_latitude : Option ℚ
  min_longitude : Option ℚ
deriving DecidableEq, Repr

/-- The gpxpy library primitives the script calls but does not define.
They are uninterpreted parameters of the embedding: `dist2`/`dist3` are
`point.distance_2d(previous)` / `point.distance_3d(previous)` (may be
unavailable, hence `Option`), `calculate_max_speed` is
`gpxpy.geo.calculate_max_speed`, `get_speed` is
`GPXTrackSegment.get_speed` (Optional[float], in m/s: it returns `None`
when no neighbouring speed is computable, e.g. for untimestamped
points), `get_time_bounds` and `get_bounds` are the track-level bound
scans. -/
structure GpxLib where
  dist2 : GPXPoint → GPXPoint → Option ℚ
  dist3 : GPXPoint → GPXPoint → Option ℚ
  calculate_max_speed : List (ℚ × ℚ) → Option ℚ
  get_speed : GPXTrackSegment → ℕ → Option ℚ
  get_time_bounds : GPXTrack → TimeBounds
  get_bounds : GPXTrack → GPXBounds

/-- `ms_to_kmh` (src lines 10-12): convert m/s to km/h. -/
def ms_to_kmh (speed : ℚ) : ℚ :=
  speed * 60 * 60 / 1000

/-- `DEFAULT_STOPPED_SPEED_THRESHOLD = 1` (src line 75). -/
def DEFAULT_STOPPED_SPEED_THRESHOLD : ℚ := 1

/-- Python truthiness of an optional float, as used by
`if point.elevation and previous.elevation` (src line 140): `None` and
`0.0` are falsy, every other float is truthy. -/
def elevTruthy : Option ℚ → Bool
  | none => false
  | some e => decide (e ≠ 0)

/-- The distance chosen for one interval (src lines 140-143):
`point.distance_3d(previous)` when both elevations are truthy, else
`point.distance_2d(previous)`. -/
def interval_distance (lib : GpxLib) (previous point : GPXPoint) : Option ℚ :=
  if elevTruthy point.elevation && elevTruthy previous.elevation then
    lib.dist3 point previous
  else
    lib.dist2 point previous

/-- The loop state of `get_moving_data` (src lines 121-127): the four
accumulators plus the `speeds_and_distances` sample list. -/
structure MDState where
  moving_time : ℚ
  stopped_time : ℚ
  moving_distance : ℚ
  stopped_distance : ℚ
  speeds_and_distances : List (ℚ × ℚ)
deriving DecidableEq, Repr

/-- The initial loop state of `get_moving_data`. -/
def mdInit : MDState := ⟨0, 0, 0, 0, []⟩

/-- One iteration of the `get_moving_data` loop body
(src lines 129-158), for the pair `(previous, point)`. -/
def md_step (lib : GpxLib) (stopped_speed_threshold : ℚ) (s : MDState)
    (previous point : GPXPoint) : MDState :=
  match point.time, previous.time with
  | some t, some t0 =>
    let distance := interval_distance lib previous point
    let seconds := t - t0
    match distance with
    | some d =>
      if 0 < seconds then
        if d ≠ 0 then
          let speed_kmh := (d / 1000) / (seconds / 60 ^ 2)
          let s1 :=
            if speed_kmh ≤ stopped_speed_threshold then
              { s with stopped_time := s.stopped_time + seconds,
                       stopped_distance := s.stopped_distance + d }
            else
              { s with moving_time := s.moving_time + seconds,
                       moving_distance := s.moving_distance + d }
          if s1.moving_time ≠ 0 then
            { s1 with speeds_and_distances :=
                s1.speeds_and_distances ++ [(d / seconds, d)] }
          else s1
        else s
      else s
    | none => s
  | _, _ => s

/-- The `for i in range(1, len(self.points))` loop of `get_moving_data`
(src line 129), folding `md_step` over consecutive pairs. -/
def md_loop (lib : GpxLib) (thr : ℚ) : MDState → List GPXPoint → MDState
  | s, previous :: point :: rest =>
    md_loop lib thr (md_step lib thr s previous point) (point :: rest)
  | s, _ => s

/-- The monkey-patched `GPXTrackSegment.get_moving_data`
(src lines 91-164): falsy thresholds are replaced by the default, the loop
accumulates the four totals and the samples, and `max_speed` is
`calculate_max_speed(samples) or 0.0` when samples exist, else `0.0`. -/
def get_moving_data (lib : GpxLib) (stopped_speed_threshold : Option ℚ)
    (points : List GPXPoint) : MovingData :=
  let threshold : ℚ :=
    match stopped_speed_threshold with
    | none => DEFAULT_STOPPED_SPEED_THRESHOLD
    | some x => if x = 0 then DEFAULT_STOPPED_SPEED_THRESHOLD else x
  let s := md_loop lib threshold mdInit points
  let max_speed : ℚ :=
    match s.speeds_and_distances with
    | [] => 0
    | l =>
      match lib.calculate_max_speed l with
      | none => 0
      | some v => if v = 0 then 0 else v
  ⟨s.moving_time, s.stopped_time, s.moving_distance, s.stopped_distance,
   max_speed⟩

/-- Modelled from the gpxpy dependency (code not in src/):
`GPXTrack.get_moving_data`. The monkey patch at src line 167 replaces only
`GPXTrackSegment.get_moving_data`, so `track.get_moving_data()` in
`to_csv` (src line 38) is the library method: it calls each segment's
(patched) `get_moving_data` with the same threshold, sums the four
accumulators over the segments, and keeps the largest per-segment
`max_speed`. -/
def track_get_moving_data (lib : GpxLib) (stopped_speed_threshold : Option ℚ)
    (track : GPXTrack) : MovingData :=
  track.segments.foldl
    (fun acc segment =>
      let md := get_moving_data lib stopped_speed_threshold segment.points
      ⟨acc.moving_time + md.moving_time,
       acc.stopped_time + md.stopped_time,
       acc.moving_distance + md.moving_distance,
       acc.stopped_distance + md.stopped_distance,
       if acc.max_speed < md.max_speed then md.max_speed else acc.max_speed⟩)
    ⟨0, 0, 0, 0, 0⟩

/-- The CSV column names written as the header row (src lines 17-32). -/
def csv_fields : List String :=
  ["gpx_name", "trk_name", "trk_mov_time", "trk_mov_dist",
   "trk_start_time", "trk_end_time", "trk_max_lat", "trk_max_long",
   "trk_min_lat", "trk_min_long", "segment_num", "lat", "long", "ele",
   "time", "speed"]

/-- One data row written by `to_csv` (src lines 44-59), with the fields in
source order and at their source types (timestamps and optional values
kept structured rather than serialized). The speed field is
`ms_to_kmh(segment.get_speed(i))` (src line 43); it is `none` when
`get_speed` returned `None`, in which case the Python expression raises
`TypeError` and the row is never actually written — see `write_rows`. -/
structure CsvRow where
  gpx_name : Option String
  trk_name : Option String
  trk_mov_time : ℚ
  trk_mov_dist : ℚ
  trk_start_time : Option ℚ
  trk_end_time : Option ℚ
  trk_max_lat : Option ℚ
  trk_max_long : Option ℚ
  trk_min_lat : Option ℚ
  trk_min_long : Option ℚ
  segment_num : ℕ
  lat : ℚ
  long : ℚ
  ele : Option ℚ
  time : Option ℚ
  speed : Option ℚ
deriving DecidableEq, Repr

/-- The row tuple written for one point (src lines 44-59), factored out
of `to_csv`. `moving_data`, `time_bounds` and `bounds` are the per-track
values that `to_csv` computes once per track (src lines 38-40); the
computation is pure, so passing them as arguments is equivalent. -/
def mkRow (lib : GpxLib) (x : GPX) (track : GPXTrack)
    (moving_data : MovingData) (time_bounds : TimeBounds)
    (bounds : GPXBounds) (k : ℕ) (segment : GPXTrackSegment) (i : ℕ)
    (point : GPXPoint) : CsvRow where
  gpx_name := x.name
  trk_name := track.name
  trk_mov_time := moving_data.moving_time
  trk_mov_dist := moving_data.moving_distance
  trk_start_time := time_bounds.start_time
  trk_end_time := time_bounds.end_time
  trk_max_lat := bounds.max_latitude
  trk_max_long := bounds.max_longitude
  trk_min_lat := bounds.min_latitude
  trk_min_long := bounds.min_longitude
  segment_num := k
  lat := point.latitude
  long := point.longitude
  ele := point.elevation
  time := point.time
  speed := (lib.get_speed segment i).map ms_to_kmh

/-- The data rows `to_csv` writes for one track (src lines 41-59): one
row per point over the enumerated segments and enumerated points, built
from the track-level `track.get_moving_data()`,
`track.get_time_bounds()` and `track.get_bounds()` values. -/
def track_rows (lib : GpxLib) (x : GPX) (track : GPXTrack) : List CsvRow :=
  track.segments.enum.flatMap (fun ks =>
    ks.2.points.enum.map (fun ip =>
      mkRow lib x track (track_get_moving_data lib none track)
        (lib.get_time_bounds track) (lib.get_bounds track)
        ks.1 ks.2 ip.1 ip.2))

/-- The document-order sequence of rows `to_csv` attempts to write: one
per point, iterating tracks, then enumerated segments, then enumerated
points (src lines 37-59). -/
def row_plan (lib : GpxLib) (x : GPX) : List CsvRow :=
  x.tracks.flatMap (track_rows lib x)

/-- The sequential `writer.writerow` loop of `to_csv` (src lines 42-59):
rows are written in order, but a row whose speed is `none` is never
reached — `ms_to_kmh(segment.get_speed(i))` at src line 43 raises
`TypeError` on `None` — so the conversion aborts there, leaving exactly
the rows already written (`Except.error` carries that prefix). -/
def write_rows : List CsvRow → Except (List CsvRow) (List CsvRow)
  | [] => Except.ok []
  | r :: rest =>
    match r.speed with
    | none => Except.error []
    | some _ =>
      match write_rows rest with
      | Except.ok rs => Except.ok (r :: rs)
      | Except.error rs => Except.error (r :: rs)

/-- The data rows that physically end up in the output file: all of them
on success, the prefix written before the `TypeError` on abort. -/
def written : Except (List CsvRow) (List CsvRow) → List CsvRow
  | Except.ok rs => rs
  | Except.error rs => rs

/-- `to_csv` (src lines 15-59): the header row followed by the outcome
of sequentially writing one data row per point in document order; the
write loop aborts mid-file when a point's speed computation raises. -/
def to_csv (lib : GpxLib) (x : GPX) :
    List String × Except (List CsvRow) (List CsvRow) :=
  (csv_fields, write_rows (row_plan lib x))

/-- Python's built-in `str.split(sep)` for a one-character separator,
modelled on the string's character list: splitting yields the (always
nonempty) list of separator-free groups, with empty groups at repeated,
leading or trailing separators, exactly as in Python. -/
def py_split (sep : Char) : List Char → List (List Char)
  | [] => [[]]
  | c :: rest =>
    if c = sep then [] :: py_split sep rest
    else
      match py_split sep rest with
      | g :: gs => (c :: g) :: gs
      | [] => [[c]]

/-- `drop_extension` (src lines 62-64): `filename.split('.')[0]`, the
part of the filename before the first dot (`py_split` never returns an
empty list, so the head default is never used). -/
def drop_extension (filename : String) : String :=
  ⟨(py_split '.' filename.data).headD []⟩

/-- The output filename built in the main block (src line 187):
`drop_extension(f) + '.csv'`. -/
def target_filename (f : String) : String :=
  drop_extension f ++ ".csv"

/-- The `__main__` block (src lines 171-191): assert that the input and
output paths are directories, then convert every listed file. The
filesystem is abstracted: `input_isdir`/`output_isdir` are the results of
the two `os.path.isdir` checks, `files` the directory listing, `parse`
the GPX parser; the result is the list of (output filename, CSV content)
pairs, or an assertion error produced before any file is processed. -/
def run_main (lib : GpxLib) (input_isdir output_isdir : Bool)
    (files : List String) (parse : String → GPX) :
    Except String
      (List (String × (List String × Except (List CsvRow) (List CsvRow)))) :=
  if input_isdir = false then
    Except.error "AssertionError: input is not a directory"
  else if output_isdir = false then
    Except.error "AssertionError: output is not a directory"
  else
    Except.ok (files.map (fun f => (target_filename f, to_csv lib (parse f))))

/-! ### Concrete instantiations of the external primitives, for witnesses
and counterexamples -/

/-- A concrete library instantiation: every pairwise distance is 100 m
(both 2D and 3D), no max-speed estimate, zero raw point speeds, empty
bounds. -/
def libC : GpxLib where
  dist2 := fun _ _ => some 100
  dist3 := fun _ _ => some 100
  calculate_max_speed := fun _ => none
  get_speed := fun _ _ => some 0
  get_time_bounds := fun _ => ⟨none, none⟩
  get_bounds := fun _ => ⟨none, none, none, none⟩

/-- A concrete library instantiation whose 2D and 3D distances differ
(100 m vs 200 m), to observe which one an interval uses. -/
def libD : GpxLib where
  dist2 := fun _ _ => some 100
  dist3 := fun _ _ => some 200
  calculate_max_speed := fun _ => none
  get_speed := fun _ _ => some 0
  get_time_bounds := fun _ => ⟨none, none⟩
  get_bounds := fun _ => ⟨none, none, none, none⟩

/-- A library instantiation whose `get_speed` returns a value only at
position 0 and `None` from the second point of a segment on — as gpxpy's
`get_speed` does, e.g., when timestamps are missing — so the export
aborts mid-file on the second point. -/
def libN : GpxLib where
  dist2 := fun _ _ => some 100
  dist3 := fun _ _ => some 100
  calculate_max_speed := fun _ => none
  get_speed := fun _ i => if i = 0 then some 0 else none
  get_time_bounds := fun _ => ⟨none, none⟩
  get_bounds := fun _ => ⟨none, none, none, none⟩

/-- A point at the origin with no elevation and the given timestamp. -/
def pt (t : ℚ) : GPXPoint := ⟨0, 0, none, some t⟩

/-- First segment of the two-segment counterexample track: points at
t = 0 s and t = 10 s. -/
def seg1 : GPXTrackSegment := ⟨[pt 0, pt 10]⟩

/-- Second segment of the two-segment counterexample track: points at
t = 20 s and t = 30 s. -/
def seg2 : GPXTrackSegment := ⟨[pt 20, pt 30]⟩

/-- A track with two segments; the inter-segment boundary pair
(t = 10 s, t = 20 s) would contribute an interval in a continuous pass. -/
def track0 : GPXTrack := ⟨some "T", [seg1, seg2]⟩

/-- A one-track GPX document built from `track0`. -/
def gpx0 : GPX := ⟨some "G", [track0]⟩

/-- A loop state in which some earlier interval was already classified as
moving (5 s, 50 m) and no samples were taken yet. -/
def sMoved : MDState := ⟨5, 0, 50, 0, []⟩

/-- A point whose elevation is present but equal to 0.0 (falsy in
Python), timestamped at t = 0 s. -/
def ptA : GPXPoint := ⟨0, 0, some 0, some 0⟩

/-- A point with elevation 5 m, timestamped at t = 10 s. -/
def ptB : GPXPoint := ⟨0, 0, some 5, some 10⟩

/-- An untimestamped point with nonzero elevation 2 m. -/
def ptC : GPXPoint := ⟨0, 0, some 2, none⟩

/-- An untimestamped point with nonzero elevation 3 m. -/
def ptD : GPXPoint := ⟨0, 0, some 3, none⟩

/-! ### List helper lemmas -/

theorem enumFrom_map_comp {α β : Type} (g : α → β) :
    ∀ (n : ℕ) (l : List α),
      (List.enumFrom n l).map (fun ip => g ip.2) = l.map g := by
  intro n l
  induction l generalizing n with
  | nil => rfl
  | cons a l ih => simp [List.enumFrom, ih]

theorem enumFrom_flatMap_comp {α β : Type} (F : α → List β) :
    ∀ (n : ℕ) (l : List α),
      (List.enumFrom n l).flatMap (fun ip => F ip.2) = l.flatMap F := by
  intro n l
  induction l generalizing n with
  | nil => rfl
  | cons a l ih => simp [List.enumFrom, List.flatMap_cons, ih]

theorem map_flatMap_comp {α β γ : Type} (l : List α) (f : α → List β)
    (g : β → γ) :
    (l.flatMap f).map g = l.flatMap (fun a => (f a).map g) := by
  induction l with
  | nil => rfl
  | cons a l ih => simp [List.flatMap_cons, ih]

theorem length_flatMap_eq {α β : Type} (l : List α) (f : α → List β) :
    (l.flatMap f).length = (l.map (fun a => (f a).length)).sum := by
  induction l with
  | nil => rfl
  | cons a l ih => simp [List.flatMap_cons, ih]

theorem map_const_eq_replicate {α β : Type} (l : List α) (c : β) :
    l.map (fun _ => c) = List.replicate l.length c := by
  induction l with
  | nil => rfl
  | cons a l ih => simp [List.replicate_succ, ih]

theorem flatMap_replicate_const {α β : Type} (l : List α) (g : α → ℕ)
    (c : β) :
    l.flatMap (fun a => List.replicate (g a) c)
      = List.replicate ((l.map g).sum) c := by
  induction l with
  | nil => rfl
  | cons a l ih =>
    rw [List.flatMap_cons, List.map_cons, List.sum_cons, List.replicate_add,
      ih]

/-! ### Helper lemmas about the aggregator loop body -/

theorem md_step_time_none (lib : GpxLib) (thr : ℚ) (s : MDState)
    (previous point : GPXPoint)
    (h : point.time = none ∨ previous.time = none) :
    md_step lib thr s previous point = s := by
  rcases h with h | h
  · unfold md_step
    rw [h]
  · unfold md_step
    rw [h]
    cases point.time <;> rfl

theorem md_step_some_some (lib : GpxLib) (thr : ℚ) (s : MDState)
    (previous point : GPXPoint) (t0 t : ℚ)
    (h0 : previous.time = some t0) (h : point.time = some t) :
    md_step lib thr s previous point =
      match interval_distance lib previous point with
      | some d =>
        if 0 < t - t0 then
          if d ≠ 0 then
            let s1 :=
              if (d / 1000) / ((t - t0) / 60 ^ 2) ≤ thr then
                { s with stopped_time := s.stopped_time + (t - t0),
                         stopped_distance := s.stopped_distance + d }
              else
                { s with moving_time := s.moving_time + (t - t0),
                         moving_distance := s.moving_distance + d }
            if s1.moving_time ≠ 0 then
              { s1 with speeds_and_distances :=
                  s1.speeds_and_distances ++ [(d / (t - t0), d)] }
            else s1
          else s
        else s
      | none => s := by
  unfold md_step
  rw [h, h0]

theorem md_step_skip (lib : GpxLib) (thr : ℚ) (s : MDState)
    (previous point : GPXPoint) (t0 t : ℚ)
    (h0 : previous.time = some t0) (h : point.time = some t)
    (hskip : t - t0 ≤ 0 ∨ interval_distance lib previous point = none ∨
      interval_distance lib previous point = some 0) :
    md_step lib thr s previous point = s := by
  rw [md_step_some_some lib thr s previous point t0 t h0 h]
  rcases hskip with h1 | h1 | h1
  · cases hd : interval_distance lib previous point with
    | none => rfl
    | some d => simp [not_lt.mpr h1]
  · rw [h1]
  · rw [h1]
    simp

theorem md_step_classified (lib : GpxLib) (thr : ℚ) (s : MDState)
    (previous point : GPXPoint) (t0 t d : ℚ)
    (h0 : previous.time = some t0) (h : point.time = some t)
    (hd : interval_distance lib previous point = some d)
    (hpos : 0 < t - t0) (hdne : d ≠ 0) :
    md_step lib thr s previous point =
      (let s1 :=
        if (d / 1000) / ((t - t0) / 60 ^ 2) ≤ thr then
          { s with stopped_time := s.stopped_time + (t - t0),
                   stopped_distance := s.stopped_distance + d }
        else
          { s with moving_time := s.moving_time + (t - t0),
                   moving_distance := s.moving_distance + d }
      if s1.moving_time ≠ 0 then
        { s1 with speeds_and_distances :=
            s1.speeds_and_distances ++ [(d / (t - t0), d)] }
      else s1) := by
  rw [md_step_some_some lib thr s previous point t0 t h0 h, hd]
  simp [hpos, hdne]

theorem md_loop_of_few_timestamps (lib : GpxLib) (thr : ℚ) :
    ∀ (points : List GPXPoint) (s : MDState),
      points.countP (fun p => p.time.isSome) < 2 →
      md_loop lib thr s points = s := by
  intro points
  induction points with
  | nil => intro s _; rfl
  | cons p tail ih =>
    intro s h
    cases tail with
    | nil => rfl
    | cons q rest =>
      have hq : p.time.isSome = true → q.time = none := by
        intro hp
        cases hqt : q.time with
        | none => rfl
        | some tq =>
          exfalso
          have h1 : (List.countP (fun p => p.time.isSome) (p :: q :: rest))
              = List.countP (fun p => p.time.isSome) rest + 2 := by
            simp [List.countP_cons, hp, hqt]
          omega
      have hstep : md_step lib thr s p q = s := by
        cases hp : p.time with
        | none => exact md_step_time_none lib thr s p q (Or.inr hp)
        | some tp =>
          exact md_step_time_none lib thr s p q
            (Or.inl (hq (by rw [hp]; rfl)))
      have htail : (q :: rest).countP (fun p => p.time.isSome) < 2 := by
        have h2 : (List.countP (fun p => p.time.isSome) (p :: q :: rest))
            = List.countP (fun p => p.time.isSome) (q :: rest)
              + (if p.time.isSome then 1 else 0) := by
          simp [List.countP_cons]
        omega
      simp only [md_loop]
      rw [hstep]
      exact ih s htail

theorem track_gmd_aux (lib : GpxLib) (thr : Option ℚ) :
    ∀ (segs : List GPXTrackSegment) (acc : MovingData),
      ((segs.foldl
        (fun acc segment =>
          let md := get_moving_data lib thr segment.points
          (⟨acc.moving_time + md.moving_time,
            acc.stopped_time + md.stopped_time,
            acc.moving_distance + md.moving_distance,
            acc.stopped_distance + md.stopped_distance,
            if acc.max_speed < md.max_speed then md.max_speed
            else acc.max_speed⟩ : MovingData)) acc).moving_time
        = acc.moving_time
          + (segs.map
              (fun sg => (get_moving_data lib thr sg.points).moving_time)).sum)
      ∧ ((segs.foldl
        (fun acc segment =>
          let md := get_moving_data lib thr segment.points
          (⟨acc.moving_time + md.moving_time,
            acc.stopped_time + md.stopped_time,
            acc.moving_distance + md.moving_distance,
            acc.stopped_distance + md.stopped_distance,
            if acc.max_speed < md.max_speed then md.max_speed
            else acc.max_speed⟩ : MovingData)) acc).moving_distance
        = acc.moving_distance
          + (segs.map
              (fun sg =>
                (get_moving_data lib thr sg.points).moving_distance)).sum) := by
  intro segs
  induction segs with
  | nil => intro acc; simp
  | cons sg rest ih =>
    intro acc
    simp only [List.foldl_cons, List.map_cons, List.sum_cons]
    constructor
    · rw [(ih _).1]
      ring_nf
    · rw [(ih _).2]
      ring_nf

/-- The fields of the (library-modelled) track-level moving data are the
sums of the per-segment aggregates. -/
theorem track_gmd_fields (lib : GpxLib) (thr : Option ℚ) (tr : GPXTrack) :
    (track_get_moving_data lib thr tr).moving_time
      = (tr.segments.map
          (fun sg => (get_moving_data lib thr sg.points).moving_time)).sum
    ∧ (track_get_moving_data lib thr tr).moving_distance
      = (tr.segments.map
          (fun sg =>
            (get_moving_data lib thr sg.points).moving_distance)).sum := by
  unfold track_get_moving_data
  have h := track_gmd_aux lib thr tr.segments ⟨0, 0, 0, 0, 0⟩
  constructor
  · rw [h.1]; simp
  · rw [h.2]; simp

theorem enum_flatMap_comp {α β : Type} (F : α → List β) (l : List α) :
    l.enum.flatMap (fun ip => F ip.2) = l.flatMap F := by
  show (List.enumFrom 0 l).flatMap (fun ip => F ip.2) = l.flatMap F
  exact enumFrom_flatMap_comp F 0 l

theorem enum_map_comp {α β : Type} (g : α → β) (l : List α) :
    l.enum.map (fun ip => g ip.2) = l.map g := by
  show (List.enumFrom 0 l).map (fun ip => g ip.2) = l.map g
  exact enumFrom_map_comp g 0 l

/-- The (trk_mov_time, trk_mov_dist) columns of every row of one track
are that track's `track.get_moving_data()` values, once per point. -/
theorem track_rows_map_mov (lib : GpxLib) (x : GPX) (track : GPXTrack) :
    (track_rows lib x track).map (fun r => (r.trk_mov_time, r.trk_mov_dist))
      = List.replicate ((track.segments.map (fun sg => sg.points.length)).sum)
          ((track_get_moving_data lib none track).moving_time,
           (track_get_moving_data lib none track).moving_distance) := by
  unfold track_rows
  rw [map_flatMap_comp]
  simp only [List.map_map, Function.comp_def, mkRow]
  simp only [map_const_eq_replicate, List.enum_length]
  rw [enum_flatMap_comp (fun sg => List.replicate sg.points.length
    ((track_get_moving_data lib none track).moving_time,
     (track_get_moving_data lib none track).moving_distance)) track.segments]
  rw [flatMap_replicate_const]

/-- The (lat, long, ele, time) columns of the rows of one track list the
track's points in segment order then point order. -/
theorem track_rows_map_point (lib : GpxLib) (x : GPX) (track : GPXTrack) :
    (track_rows lib x track).map (fun r => (r.lat, r.long, r.ele, r.time))
      = (track.segments.flatMap (fun sg => sg.points)).map
          (fun p => (p.latitude, p.longitude, p.elevation, p.time)) := by
  unfold track_rows
  rw [map_flatMap_comp, map_flatMap_comp]
  simp only [List.map_map, Function.comp_def, mkRow]
  simp only [enum_map_comp (fun p : GPXPoint =>
    (p.latitude, p.longitude, p.elevation, p.time))]
  rw [enum_flatMap_comp (fun sg : GPXTrackSegment => sg.points.map
    (fun p => (p.latitude, p.longitude, p.elevation, p.time))) track.segments]

/-- Every row `to_csv` plans for a document has a computed speed when
the library's `get_speed` succeeds on every query. -/
theorem row_plan_speed_isSome (lib : GpxLib)
    (hs : ∀ sg i, (lib.get_speed sg i).isSome = true) (x : GPX) :
    ∀ r ∈ row_plan lib x, r.speed.isSome = true := by
  intro r hr
  simp only [row_plan, track_rows, List.mem_flatMap, List.mem_map] at hr
  obtain ⟨tr, _, ks, _, ip, _, rfl⟩ := hr
  obtain ⟨v, hv⟩ := Option.isSome_iff_exists.mp (hs ks.2 ip.1)
  simp [mkRow, hv]

/-- When every row's speed was computed, the sequential write loop
writes the whole row list. -/
theorem write_rows_all_some :
    ∀ l : List CsvRow, (∀ r ∈ l, r.speed.isSome = true) →
      write_rows l = Except.ok l := by
  intro l
  induction l with
  | nil => intro _; rfl
  | cons r rest ih =>
    intro h
    obtain ⟨v, hv⟩ := Option.isSome_iff_exists.mp (h r (by simp))
    have hrest := ih (fun r2 hr2 => h r2 (by simp [hr2]))
    simp only [write_rows, hv, hrest]

/-- `to_csv` completes (no `TypeError`) and writes the whole planned
row sequence whenever `get_speed` succeeds on every query. -/
theorem to_csv_rows_ok (lib : GpxLib)
    (hs : ∀ sg i, (lib.get_speed sg i).isSome = true) (x : GPX) :
    (to_csv lib x).2 = Except.ok (row_plan lib x) :=
  write_rows_all_some (row_plan lib x) (row_plan_speed_isSome lib hs x)

/-- The rows the write loop delivers — completely on success, the
already-written part on abort — are an initial part of its input. -/
theorem write_rows_written_append :
    ∀ l rows : List CsvRow,
      (write_rows l = Except.ok rows ∨ write_rows l = Except.error rows) →
      ∃ rest, l = rows ++ rest := by
  intro l
  induction l with
  | nil =>
    intro rows h
    rcases h with h | h
    · simp only [write_rows] at h
      injection h with h2
      subst h2
      exact ⟨[], rfl⟩
    · simp only [write_rows] at h
      exact Except.noConfusion h
  | cons r rest ih =>
    intro rows h
    cases hsp : r.speed with
    | none =>
      rcases h with h | h
      · simp only [write_rows, hsp] at h
        exact Except.noConfusion h
      · simp only [write_rows, hsp] at h
        injection h with h2
        subst h2
        exact ⟨r :: rest, rfl⟩
    | some v =>
      cases hw : write_rows rest with
      | ok rs =>
        rcases h with h | h
        · simp only [write_rows, hsp, hw] at h
          injection h with h2
          subst h2
          obtain ⟨rest2, hrest2⟩ := ih rs (Or.inl hw)
          exact ⟨rest2, by rw [List.cons_append, ← hrest2]⟩
        · simp only [write_rows, hsp, hw] at h
          exact Except.noConfusion h
      | error rs =>
        rcases h with h | h
        · simp only [write_rows, hsp, hw] at h
          exact Except.noConfusion h
        · simp only [write_rows, hsp, hw] at h
          injection h with h2
          subst h2
          obtain ⟨rest2, hrest2⟩ := ih rs (Or.inr hw)
          exact ⟨rest2, by rw [List.cons_append, ← hrest2]⟩

/-- C1 (counterexample): for the concrete document `gpx0` (one track,
two segments of two timestamped points each, every pairwise distance
100 m, `get_speed` succeeding everywhere so all four rows are written),
the trk_mov_time/trk_mov_dist values written into all four rows by
`to_csv` are 20 s / 200 m — the sum of the two per-segment aggregates —
whereas one continuous §4.1 pass over the concatenated point sequence of
the track yields 30 s / 300 m, because the inter-segment boundary pair
contributes an interval. The claim, as stated, is therefore false at
this input. -/
theorem C1_counterexample :
    ((row_plan libC gpx0).map (fun r => (r.trk_mov_time, r.trk_mov_dist))
        = List.replicate 4 ((20 : ℚ), (200 : ℚ)))
    ∧ (to_csv libC gpx0).2 = Except.ok (row_plan libC gpx0)
    ∧ (get_moving_data libC none (seg1.points ++ seg2.points)).moving_time
        = 30
    ∧ (get_moving_data libC none (seg1.points ++ seg2.points)).moving_distance
        = 300
    ∧ ((20 : ℚ), (200 : ℚ)) ≠ ((30 : ℚ), (300 : ℚ)) := by
  have hs1 : get_moving_data libC none seg1.points = ⟨10, 0, 100, 0, 0⟩ := by
    norm_num [get_moving_data, md_loop, md_step, interval_distance,
      elevTruthy, libC, mdInit, seg1, pt, DEFAULT_STOPPED_SPEED_THRESHOLD,
      MovingData.mk.injEq]
  have hs2 : get_moving_data libC none seg2.points = ⟨10, 0, 100, 0, 0⟩ := by
    norm_num [get_moving_data, md_loop, md_step, interval_distance,
      elevTruthy, libC, mdInit, seg2, pt, DEFAULT_STOPPED_SPEED_THRESHOLD,
      MovingData.mk.injEq]
  have hc : get_moving_data libC none (seg1.points ++ seg2.points)
      = ⟨30, 0, 300, 0, 0⟩ := by
    norm_num [get_moving_data, md_loop, md_step, interval_distance,
      elevTruthy, libC, mdInit, seg1, seg2, pt,
      DEFAULT_STOPPED_SPEED_THRESHOLD, MovingData.mk.injEq]
  refine ⟨?_, to_csv_rows_ok libC (fun sg i => rfl) gpx0,
    by rw [hc], by rw [hc], by norm_num⟩
  show ([track0].flatMap (track_rows libC gpx0)).map
      (fun r => (r.trk_mov_time, r.trk_mov_dist)) = _
  rw [List.flatMap_cons, List.flatMap_nil, List.append_nil,
    track_rows_map_mov, (track_gmd_fields libC none track0).1,
    (track_gmd_fields libC none track0).2]
  simp only [track0, List.map_cons, List.map_nil, List.sum_cons,
    List.sum_nil, hs1, hs2]
  norm_num [seg1, seg2, pt]

/-- C1 (amended): the track-level MovingData values written into the
rows of `to_csv` are the sums over the track's segments of the
per-segment §4.1 aggregates (the gpxpy track-level combination), not one
continuous pass over the concatenated point sequence: every row in the
document-order row sequence carries its track's segment sums, and the
rows `to_csv` actually delivers (all of them on success, the
already-written part on abort) are an initial part of that sequence. -/
theorem C1_track_columns_are_segment_sums (lib : GpxLib) (x : GPX) :
    ((row_plan lib x).map (fun r => (r.trk_mov_time, r.trk_mov_dist))
      = x.tracks.flatMap (fun tr =>
          List.replicate ((tr.segments.map (fun sg => sg.points.length)).sum)
            ((tr.segments.map (fun sg =>
                (get_moving_data lib none sg.points).moving_time)).sum,
             (tr.segments.map (fun sg =>
                (get_moving_data lib none sg.points).moving_distance)).sum)))
    ∧ (∀ rows, ((to_csv lib x).2 = Except.ok rows ∨
        (to_csv lib x).2 = Except.error rows) →
        ∃ rest, row_plan lib x = rows ++ rest) := by
  refine ⟨?_, fun rows h =>
    write_rows_written_append (row_plan lib x) rows h⟩
  show (x.tracks.flatMap (track_rows lib x)).map
      (fun r => (r.trk_mov_time, r.trk_mov_dist)) = _
  rw [map_flatMap_comp]
  have h : (fun track => (track_rows lib x track).map
        (fun r => (r.trk_mov_time, r.trk_mov_dist)))
      = (fun tr =>
          List.replicate ((tr.segments.map (fun sg => sg.points.length)).sum)
            ((tr.segments.map (fun sg =>
                (get_moving_data lib none sg.points).moving_time)).sum,
             (tr.segments.map (fun sg =>
                (get_moving_data lib none sg.points).moving_distance)).sum)) := by
    funext tr
    rw [track_rows_map_mov, (track_gmd_fields lib none tr).1,
      (track_gmd_fields lib none tr).2]
  rw [h]

/-- C6 (counterexample): with a library valuation whose `get_speed`
returns a value only at position 0 and `None` afterwards (as gpxpy's
does when, e.g., timestamps are missing — normal data per the spec),
`ms_to_kmh(None)` raises `TypeError` and `to_csv` aborts mid-file on
`gpx0`: only 1 row is written although the document has 4 trackpoints,
and no complete row list is ever produced. The claim's "exactly one data
row per trackpoint" is therefore false of the program at this input. -/
theorem C6_counterexample :
    (written (to_csv libN gpx0).2).length = 1
    ∧ (gpx0.tracks.flatMap (fun tr =>
        tr.segments.flatMap (fun sg => sg.points))).length = 4
    ∧ (1 : ℕ) ≠ 4
    ∧ ∀ rows, (to_csv libN gpx0).2 ≠ Except.ok rows := by
  refine ⟨?_, by simp [gpx0, track0, seg1, seg2], by norm_num, ?_⟩
  · simp [to_csv, row_plan, track_rows, written, write_rows, mkRow, libN,
      gpx0, track0, seg1, seg2, pt, List.enum, List.enumFrom]
  · intro rows h
    simp [to_csv, row_plan, track_rows, write_rows, mkRow, libN,
      gpx0, track0, seg1, seg2, pt, List.enum, List.enumFrom] at h

/-- C6 (amended): provided the object model's `get_speed` returns a
value for every queried point — so `ms_to_kmh(segment.get_speed(i))`
never receives `None` — `to_csv` emits first a header row of exactly the
16 column names in source order and then writes exactly one data row per
trackpoint in document order (track order, then segment order, then
point order), so the number of data rows equals the total point count
across all segments of all tracks; when `get_speed` returns `None` for
some point, the export instead aborts there with a `TypeError`. -/
theorem C6_header_and_row_per_point (lib : GpxLib) (x : GPX)
    (hs : ∀ sg i, (lib.get_speed sg i).isSome = true) :
    (to_csv lib x).1 = ["gpx_name", "trk_name", "trk_mov_time",
      "trk_mov_dist", "trk_start_time", "trk_end_time", "trk_max_lat",
      "trk_max_long", "trk_min_lat", "trk_min_long", "segment_num", "lat",
      "long", "ele", "time", "speed"]
    ∧ (to_csv lib x).2 = Except.ok (row_plan lib x)
    ∧ ((row_plan lib x).map (fun r => (r.lat, r.long, r.ele, r.time))
        = (x.tracks.flatMap (fun tr =>
            tr.segments.flatMap (fun sg => sg.points))).map
              (fun p => (p.latitude, p.longitude, p.elevation, p.time)))
    ∧ (row_plan lib x).length
        = (x.tracks.map (fun tr =>
            (tr.segments.map (fun sg => sg.points.length)).sum)).sum := by
  refine ⟨rfl, to_csv_rows_ok lib hs x, ?_, ?_⟩
  · show (x.tracks.flatMap (track_rows lib x)).map
        (fun r => (r.lat, r.long, r.ele, r.time)) = _
    rw [map_flatMap_comp, map_flatMap_comp]
    have h : (fun track => (track_rows lib x track).map
          (fun r => (r.lat, r.long, r.ele, r.time)))
        = (fun tr => (tr.segments.flatMap (fun sg => sg.points)).map
            (fun p => (p.latitude, p.longitude, p.elevation, p.time))) :=
      funext fun tr => track_rows_map_point lib x tr
    rw [h]
  · show (x.tracks.flatMap (track_rows lib x)).length = _
    rw [length_flatMap_eq]
    have h : (fun tr => (track_rows lib x tr).length)
        = (fun tr => (tr.segments.map (fun sg => sg.points.length)).sum) := by
      funext tr
      have h2 := congrArg List.length (track_rows_map_point lib x tr)
      rw [List.length_map, List.length_map, length_flatMap_eq] at h2
      exact h2
    rw [h]

/-- C6 witness: under `libC` (whose `get_speed` always succeeds) the
export of `gpx0` completes, writing the whole planned row sequence, with
one row per each of the document's 4 trackpoints. -/
theorem C6_witness :
    (to_csv libC gpx0).2 = Except.ok (row_plan libC gpx0)
    ∧ (row_plan libC gpx0).length = 4 := by
  have h := C6_header_and_row_per_point libC gpx0 (fun sg i => rfl)
  refine ⟨h.2.1, ?_⟩
  rw [h.2.2.2]
  simp [gpx0, track0, seg1, seg2]

/-- C2: for a consecutive pair in `get_moving_data`, pairs missing a
timestamp change nothing; with both timestamps, an interval with elapsed
≤ 0, unavailable distance, or zero distance changes no accumulator;
otherwise the interval is classified by comparing its speed in km/h
(= (distance/1000)/(seconds/3600)) with the stopped-speed threshold:
at most the threshold adds to the stopped accumulators, above it adds to
the moving accumulators. -/
theorem C2_interval_classification (lib : GpxLib) (thr : ℚ) (s : MDState)
    (previous point : GPXPoint) :
    ((point.time = none ∨ previous.time = none) →
      md_step lib thr s previous point = s)
    ∧ (∀ t0 t, previous.time = some t0 → point.time = some t →
        ((t - t0 ≤ 0 → md_step lib thr s previous point = s)
         ∧ (interval_distance lib previous point = none →
             md_step lib thr s previous point = s)
         ∧ (interval_distance lib previous point = some 0 →
             md_step lib thr s previous point = s)
         ∧ (∀ d, interval_distance lib previous point = some d →
             0 < t - t0 → d ≠ 0 →
             (((d / 1000) / ((t - t0) / 3600) ≤ thr →
                 (md_step lib thr s previous point).stopped_time
                   = s.stopped_time + (t - t0)
                 ∧ (md_step lib thr s previous point).stopped_distance
                   = s.stopped_distance + d
                 ∧ (md_step lib thr s previous point).moving_time
                   = s.moving_time
                 ∧ (md_step lib thr s previous point).moving_distance
                   = s.moving_distance)
              ∧ (thr < (d / 1000) / ((t - t0) / 3600) →
                 (md_step lib thr s previous point).moving_time
                   = s.moving_time + (t - t0)
                 ∧ (md_step lib thr s previous point).moving_distance
                   = s.moving_distance + d
                 ∧ (md_step lib thr s previous point).stopped_time
                   = s.stopped_time
                 ∧ (md_step lib thr s previous point).stopped_distance
                   = s.stopped_distance))))) := by
  have h60 : ((60 : ℚ) ^ 2) = 3600 := by norm_num
  refine ⟨fun h => md_step_time_none lib thr s previous point h,
    fun t0 t h0 h => ⟨fun hle =>
      md_step_skip lib thr s previous point t0 t h0 h (Or.inl hle),
      fun hd =>
        md_step_skip lib thr s previous point t0 t h0 h (Or.inr (Or.inl hd)),
      fun hd =>
        md_step_skip lib thr s previous point t0 t h0 h (Or.inr (Or.inr hd)),
      fun d hd hpos hdne => ⟨fun hle => ?_, fun hgt => ?_⟩⟩⟩
  · rw [md_step_classified lib thr s previous point t0 t d h0 h hd hpos hdne]
    have hc : (d / 1000) / ((t - t0) / 60 ^ 2) ≤ thr := by
      rw [h60]; exact hle
    simp only [if_pos hc]
    simp [apply_ite MDState.stopped_time, apply_ite MDState.stopped_distance,
      apply_ite MDState.moving_time, apply_ite MDState.moving_distance]
  · rw [md_step_classified lib thr s previous point t0 t d h0 h hd hpos hdne]
    have hc : ¬ ((d / 1000) / ((t - t0) / 60 ^ 2) ≤ thr) := by
      rw [h60]; exact not_le.mpr hgt
    simp only [if_neg hc]
    simp [apply_ite MDState.stopped_time, apply_ite MDState.stopped_distance,
      apply_ite MDState.moving_time, apply_ite MDState.moving_distance]

/-- C2 witness: a concrete moving interval (100 m in 10 s, 36 km/h above
the 1 km/h threshold) adds its elapsed time and distance to the moving
accumulators and leaves the stopped accumulators unchanged. -/
theorem C2_witness :
    (md_step libC 1 mdInit (pt 0) (pt 10)).moving_time
      = mdInit.moving_time + (10 - 0)
    ∧ (md_step libC 1 mdInit (pt 0) (pt 10)).moving_distance
      = mdInit.moving_distance + 100
    ∧ (md_step libC 1 mdInit (pt 0) (pt 10)).stopped_time
      = mdInit.stopped_time
    ∧ (md_step libC 1 mdInit (pt 0) (pt 10)).stopped_distance
      = mdInit.stopped_distance :=
  (((C2_interval_classification libC 1 mdInit (pt 0) (pt 10)).2 0 10 rfl
    rfl).2.2.2 100 rfl (by norm_num) (by norm_num)).2 (by norm_num)

/-- C3: an interval's (distance/seconds, distance) pair is appended to
the sample list exactly when, after classification, the cumulative
moving_time is nonzero; in particular a stopped interval still records a
sample when an earlier interval was moving; skipped intervals append
nothing. -/
theorem C3_sample_collection (lib : GpxLib) (thr : ℚ) (s : MDState)
    (previous point : GPXPoint) :
    ((point.time = none ∨ previous.time = none) →
      (md_step lib thr s previous point).speeds_and_distances
        = s.speeds_and_distances)
    ∧ (∀ t0 t, previous.time = some t0 → point.time = some t →
        ((t - t0 ≤ 0 ∨ interval_distance lib previous point = none ∨
           interval_distance lib previous point = some 0) →
          (md_step lib thr s previous point).speeds_and_distances
            = s.speeds_and_distances)
        ∧ (∀ d, interval_distance lib previous point = some d →
            0 < t - t0 → d ≠ 0 →
            ((md_step lib thr s previous point).speeds_and_distances
              = if (md_step lib thr s previous point).moving_time ≠ 0
                then s.speeds_and_distances ++ [(d / (t - t0), d)]
                else s.speeds_and_distances)
            ∧ ((d / 1000) / ((t - t0) / 3600) ≤ thr → s.moving_time ≠ 0 →
                (md_step lib thr s previous point).speeds_and_distances
                  = s.speeds_and_distances ++ [(d / (t - t0), d)]))) := by
  have h60 : ((60 : ℚ) ^ 2) = 3600 := by norm_num
  refine ⟨fun h => by rw [md_step_time_none lib thr s previous point h],
    fun t0 t h0 h => ⟨fun hskip => by
      rw [md_step_skip lib thr s previous point t0 t h0 h hskip],
      fun d hd hpos hdne => ⟨?_, fun hle hm => ?_⟩⟩⟩
  · rw [md_step_classified lib thr s previous point t0 t d h0 h hd hpos hdne]
    by_cases hc : (d / 1000) / ((t - t0) / 60 ^ 2) ≤ thr
    · simp only [if_pos hc]
      simp [apply_ite MDState.speeds_and_distances,
        apply_ite MDState.moving_time]
    · simp only [if_neg hc]
      simp [apply_ite MDState.speeds_and_distances,
        apply_ite MDState.moving_time]
  · rw [md_step_classified lib thr s previous point t0 t d h0 h hd hpos hdne]
    have hc : (d / 1000) / ((t - t0) / 60 ^ 2) ≤ thr := by
      rw [h60]; exact hle
    simp only [if_pos hc]
    simp [hm]

/-- C3 witness: a concrete stopped interval (100 m in 400 s, 0.9 km/h,
at most the 1 km/h threshold) still appends its sample because an
earlier interval of the sequence was classified as moving
(`sMoved.moving_time = 5`). -/
theorem C3_witness :
    (md_step libC 1 sMoved (pt 0) (pt 400)).speeds_and_distances
      = sMoved.speeds_and_distances ++ [(100 / (400 - 0), 100)] :=
  (((C3_sample_collection libC 1 sMoved (pt 0) (pt 400)).2 0 400 rfl
    rfl).2 100 rfl (by norm_num) (by norm_num)).2 (by norm_num)
    (by norm_num [sMoved])

/-- C4 (counterexample): `ptA` has elevation 0.0 and `ptB` has elevation
5 m — both endpoints of the interval have an elevation — yet the code's
truthiness test makes the interval use the 2D distance (100 m under
`libD`), not the 3D distance (200 m under `libD`). The claim as stated
is therefore false at this input. -/
theorem C4_counterexample :
    ptA.elevation ≠ none ∧ ptB.elevation ≠ none
    ∧ interval_distance libD ptA ptB = some 100
    ∧ libD.dist3 ptB ptA = some 200
    ∧ libD.dist2 ptB ptA = some 100
    ∧ (some (100 : ℚ)) ≠ (some (200 : ℚ)) := by
  refine ⟨by simp [ptA], by simp [ptB], ?_, rfl, rfl, by norm_num⟩
  simp [interval_distance, elevTruthy, ptA, ptB, libD]

/-- C4 (amended): an interval's distance is computed in 3D exactly when
both endpoints have a present and nonzero elevation (Python truthiness:
elevation 0.0 counts as absent), else in 2D; the choice is made
independently per interval. -/
theorem C4_distance_dimension_choice (lib : GpxLib)
    (previous point : GPXPoint) :
    ((∃ e, previous.elevation = some e ∧ e ≠ 0) →
      (∃ e, point.elevation = some e ∧ e ≠ 0) →
      interval_distance lib previous point = lib.dist3 point previous)
    ∧ ((previous.elevation = none ∨ previous.elevation = some 0 ∨
        point.elevation = none ∨ point.elevation = some 0) →
      interval_distance lib previous point = lib.dist2 point previous) := by
  constructor
  · rintro ⟨e0, he0, hne0⟩ ⟨e1, he1, hne1⟩
    simp [interval_distance, elevTruthy, he0, he1, hne0, hne1]
  · rintro (h | h | h | h) <;>
      simp [interval_distance, elevTruthy, h]

/-- C4 witness: both elevations present and nonzero (2 m, 3 m) selects
the 3D distance; a present-but-zero elevation selects the 2D distance. -/
theorem C4_witness :
    interval_distance libD ptC ptD = libD.dist3 ptD ptC
    ∧ interval_distance libD ptA ptB = libD.dist2 ptB ptA :=
  ⟨(C4_distance_dimension_choice libD ptC ptD).1 ⟨2, rfl, by norm_num⟩
      ⟨3, rfl, by norm_num⟩,
   (C4_distance_dimension_choice libD ptA ptB).2 (Or.inr (Or.inl rfl))⟩

/-- C5: for a point sequence with fewer than 2 timestamped points
(including the empty sequence), `get_moving_data` returns the all-zero
aggregate — no interval qualifies, no sample is collected, and
max_speed defaults to 0.0. (The Lean model is total, matching the
source's absence of exceptions on such inputs.) -/
theorem C5_few_timestamped_points (lib : GpxLib) (thr : Option ℚ)
    (points : List GPXPoint)
    (h : points.countP (fun p => p.time.isSome) < 2) :
    get_moving_data lib thr points = ⟨0, 0, 0, 0, 0⟩ := by
  simp only [get_moving_data]
  rw [md_loop_of_few_timestamps lib _ points mdInit h]
  rfl

/-- C5 witness: a single timestamped point yields the all-zero
aggregate. -/
theorem C5_witness :
    (List.countP (fun p => p.time.isSome) [pt 0] < 2)
    ∧ get_moving_data libC none [pt 0] = ⟨0, 0, 0, 0, 0⟩ :=
  ⟨by decide, C5_few_timestamped_points libC none [pt 0] (by decide)⟩

/-- Splitting never yields an empty group list (Python's `str.split`
returns at least one group). -/
theorem py_split_ne_nil (sep : Char) : ∀ l : List Char, py_split sep l ≠ [] := by
  intro l
  cases l with
  | nil => simp [py_split]
  | cons c rest =>
    simp only [py_split]
    by_cases hc : c = sep
    · simp [hc]
    · rw [if_neg hc]
      cases h : py_split sep rest <;> simp

/-- The first group of the split is exactly the run of characters
before the first separator. -/
theorem headD_py_split (sep : Char) :
    ∀ l : List Char,
      (py_split sep l).headD [] = l.takeWhile (fun c => c ≠ sep) := by
  intro l
  induction l with
  | nil => rfl
  | cons c rest ih =>
    simp only [py_split]
    by_cases hc : c = sep
    · subst hc
      simp [List.takeWhile]
    · rw [if_neg hc]
      cases h : py_split sep rest with
      | nil => exact absurd h (py_split_ne_nil sep rest)
      | cons g gs =>
        rw [h] at ih
        simp only [List.headD_cons] at ih
        simp [List.takeWhile, hc, ih]

/-- C8: for every input filename, the output filename truncates the
input at the FIRST dot (`drop_extension` keeps exactly the characters
before the first '.') and appends ".csv"; in particular "track.gpx"
maps to "track.csv" and "a.b.gpx" maps to "a.csv". -/
theorem C8_first_dot_truncation :
    (∀ f : String, drop_extension f
        = ⟨f.data.takeWhile (fun c => c ≠ '.')⟩)
    ∧ (∀ f : String, target_filename f
        = ⟨f.data.takeWhile (fun c => c ≠ '.')⟩ ++ ".csv")
    ∧ drop_extension "track.gpx" = "track"
    ∧ drop_extension "a.b.gpx" = "a"
    ∧ target_filename "track.gpx" = "track.csv"
    ∧ target_filename "a.b.gpx" = "a.csv" := by
  have h1 : ∀ f : String, drop_extension f
      = ⟨f.data.takeWhile (fun c => c ≠ '.')⟩ := by
    intro f
    unfold drop_extension
    exact congrArg String.mk (headD_py_split _ f.data)
  exact ⟨h1, fun f => by unfold target_filename; rw [h1], rfl, rfl, rfl, rfl⟩

/-- C9: if either command-line path is not an existing directory, the
run aborts with an assertion error and produces no output: no (output
filename, CSV content) pair is ever built. -/
theorem C9_precondition_abort (lib : GpxLib)
    (input_isdir output_isdir : Bool) (files : List String)
    (parse : String → GPX)
    (h : input_isdir = false ∨ output_isdir = false) :
    (∃ msg, run_main lib input_isdir output_isdir files parse
       = Except.error msg)
    ∧ ∀ outs, run_main lib input_isdir output_isdir files parse
       ≠ Except.ok outs := by
  have herr : ∃ msg, run_main lib input_isdir output_isdir files parse
      = Except.error msg := by
    rcases h with h | h
    · exact ⟨"AssertionError: input is not a directory",
        by simp only [run_main, if_pos h]⟩
    · by_cases h2 : input_isdir = false
      · exact ⟨"AssertionError: input is not a directory",
          by simp only [run_main, if_pos h2]⟩
      · exact ⟨"AssertionError: output is not a directory",
          by simp only [run_main, if_neg h2, if_pos h]⟩
  refine ⟨herr, fun outs hok => ?_⟩
  obtain ⟨msg, heq⟩ := herr
  rw [heq] at hok
  exact Except.noConfusion hok

/-- C9 witness: with a non-directory input path the run aborts with an
assertion error. -/
theorem C9_witness :
    (∃ msg, run_main libC false true ["track.gpx"] (fun _ => gpx0)
       = Except.error msg)
    ∧ ∀ outs, run_main libC false true ["track.gpx"] (fun _ => gpx0)
       ≠ Except.ok outs :=
  C9_precondition_abort libC false true ["track.gpx"] (fun _ => gpx0)
    (Or.inl rfl)

/-- C10: passing a falsy stopped-speed threshold — `None` or 0 (Python's
0 and 0.0 coincide in the rational model) — makes `get_moving_data`
behave exactly as if the default threshold of 1 km/h had been passed; a
strictly-zero threshold cannot be requested. -/
theorem C10_falsy_threshold_defaults (lib : GpxLib)
    (points : List GPXPoint) :
    get_moving_data lib none points = get_moving_data lib (some 1) points
    ∧ get_moving_data lib (some 0) points
        = get_moving_data lib (some 1) points := by
  constructor <;>
    simp [get_moving_data, DEFAULT_STOPPED_SPEED_THRESHOLD]

end GpxToCsv
